import Mathlib

/-!
Verification development for the telemetry acquisition/recording core of the
repository (two Python sources: `monitor.py`, an HWiNFO shared-memory monitor,
and `monitor_linux_backup.py`, a psutil/qmassa system monitor).

Modelling conventions (shallow embedding):
* Python dicts are ordered association lists `List (String × α)`; assignment
  `d[k] = v` is `dset` (replace in place if the key exists, else append),
  `d.update(u)` is `dupdate`, `d.get k default` is `dlookup` plus `getD`.
  This matches CPython's insertion-ordered dict semantics.
* Binary doubles and Python floats are modelled as `ℚ`; the monitored code
  never does float arithmetic whose rounding behaviour a claim depends on.
* Fallible code returns `Option`; functions that close/delete a resource
  additionally return the final resource state so that release-on-exit
  claims are statements about the returned state.
-/

/-- Ordered-dict assignment `d[k] = v`: if the key is present its value is
replaced keeping its position, otherwise the pair is appended (CPython dict
semantics). -/
def dset {α : Type} : List (String × α) → String → α → List (String × α)
  | [], k, v => [(k, v)]
  | (k', v') :: t, k, v => if k' = k then (k', v) :: t else (k', v') :: dset t k v

/-- Ordered-dict lookup (first binding of the key, which is the only one for
dicts built by `dset`). -/
def dlookup {α : Type} (k : String) : List (String × α) → Option α
  | [] => none
  | (k', v) :: t => if k' = k then some v else dlookup k t

/-- The key list of an ordered dict. -/
def dkeys {α : Type} (d : List (String × α)) : List String := d.map Prod.fst

/-- Python `d.update(u)`: assign every binding of `u` into `d` in order. -/
def dupdate {α : Type} (d u : List (String × α)) : List (String × α) :=
  u.foldl (fun acc kv => dset acc kv.1 kv.2) d

/-- Membership of a string in a string list, as a Bool. -/
def smemb (k : String) : List String → Bool
  | [] => false
  | x :: t => decide (x = k) || smemb k t

/-- Does the character list `h` start with the character list `n`? -/
def startsWithChars : List Char → List Char → Bool
  | _, [] => true
  | [], _ :: _ => false
  | a :: as, b :: bs => decide (a = b) && startsWithChars as bs

/-- Does the character list `h` contain `n` as a contiguous run?  Models the
Python substring test `n in h`. -/
def containsChars (h n : List Char) : Bool :=
  match h with
  | [] => n.isEmpty
  | _ :: t => startsWithChars (h) n || containsChars t n

/-- Python `sub in hay` on strings (contiguous substring containment). -/
def strContains (hay sub : String) : Bool := containsChars hay.toList sub.toList

/-- Lexicographic (code-point) order on character lists, the order Python uses
to compare strings. -/
def charsLe : List Char → List Char → Bool
  | [], _ => true
  | _ :: _, [] => false
  | a :: as, b :: bs => decide (a.toNat < b.toNat) || (decide (a = b) && charsLe as bs)

/-- Python string `≤` (code-point lexicographic). -/
def strLe (a b : String) : Bool := charsLe a.toList b.toList

/-- Insert a string into an already sorted list, keeping it sorted. -/
def insertSorted (x : String) : List String → List String
  | [] => [x]
  | y :: ys => if strLe x y then x :: y :: ys else y :: insertSorted x ys

/-- Python `sorted` on a list of strings (insertion sort; the inputs it is
applied to are duplicate-free so stability is irrelevant). -/
def sortStrings : List String → List String
  | [] => []
  | x :: xs => insertSorted x (sortStrings xs)

/-- Round half to even (the tie rule of Python's `round`). -/
def roundHalfEven (q : ℚ) : ℤ :=
  let f := ⌊q⌋
  let r := q - f
  if r < 1 / 2 then f
  else if 1 / 2 < r then f + 1
  else if f % 2 = 0 then f else f + 1

/-- Python `round(q, n)` modelled on exact rationals.  (Python rounds on the
binary-float representation, which can differ on representation ties; no
claim depends on a tie.) -/
def pyRound (q : ℚ) (n : ℕ) : ℚ := (roundHalfEven (q * 10 ^ n) : ℚ) / 10 ^ n

/-- Python `int()` truncation toward zero on a rational. -/
def truncQ (q : ℚ) : ℤ := if q < 0 then ⌈q⌉ else ⌊q⌋

/-!
## monitor.py — HWiNFO shared-memory decoder

`get_hwinfo_data` (monitor.py lines 140-182) maps the named global shared
memory region (500000 bytes, read-only), copies out a packed header, validates
the 4-byte signature `b'HWiS'`, dispatches the reading-element layout on the
declared `SizeOfReadingElement` (460 / 320 / 252, differing only in label
widths and trailing padding), seeks to the reading section and decodes
`NumReadingElements` consecutive elements, filtering them by a keyword
allow-list.
-/

/-- Allow-list of label keywords, copied verbatim from `TARGET_KEYWORDS`
(monitor.py lines 44-70). -/
def TARGET_KEYWORDS : List String :=
  ["GPU D3D", "GPU Video", "GT Cores Power", "GPU Clock", "GPU Busy",
   "Framerate", "CPU Package Power", "Total CPU Usage", "IA Cores Power",
   "CPU GT Cores", "CPU Package", "Drive Temperature", "Charge Level",
   "Remaining Capacity", "Battery Voltage", "NPU"]

/-- The 4 signature bytes of `b'HWiS'`. -/
def HWINFO_SIGNATURE : List Nat := [72, 87, 105, 83]

/-- The fixed size of the shared-memory mapping (monitor.py line 144). -/
def SHM_MAP_SIZE : Nat := 500000

/-- The packed `HWiNFO_Header` struct (monitor.py lines 75-88), with machine
integers as `Nat`/`Int` — no claim involves their overflow. -/
structure HWiNFOHeader where
  signature : List Nat
  version : Nat
  revision : Nat
  pollTime : Int
  offsetOfSensorSection : Nat
  sizeOfSensorElement : Nat
  numSensorElements : Nat
  offsetOfReadingSection : Nat
  sizeOfReadingElement : Nat
  numReadingElements : Nat
deriving DecidableEq

/-- One decoded reading element (the common fields of `HWiNFO_Element_460/
320/252`, monitor.py lines 90-134).  The raw label/unit fields are byte lists
(fixed-width, NUL padded in the real layout); the four doubles are rationals.
The three layouts differ only in byte widths and padding, which the byte-list
representation absorbs. -/
structure ReadingElement where
  tReading : Nat
  dwSensorIndex : Nat
  dwReadingID : Nat
  szLabelOrig : List Nat
  szLabelUser : List Nat
  szUnit : List Nat
  value : ℚ
  valueMin : ℚ
  valueMax : ℚ
  valueAvg : ℚ
deriving DecidableEq

/-- The mapped region as seen by one call: the copied header, and the list of
reading elements that are wholly contained in the 500000-byte mapping starting
at `offsetOfReadingSection` (one entry per full `sizeOfReadingElement`-byte
slot, in order).  Reading past the end of this list models the short
`mmap.read` that makes `from_buffer_copy` raise `ValueError`. -/
structure ShmRegion where
  header : HWiNFOHeader
  elements : List ReadingElement
deriving DecidableEq

/-- Decode a fixed-width `latin-1` byte field to a string.  Python's
`bytes.decode('latin-1')` is total: every byte maps to the char of its code
point (so the `except: continue` around it never fires). -/
def latin1Decode (bs : List Nat) : String := String.mk (bs.map Char.ofNat)

/-- Python `s.strip('\x00')`: drop NUL characters from both ends. -/
def stripNul (s : String) : String :=
  String.mk (((s.toList.dropWhile fun c => c.toNat == 0).reverse.dropWhile
    fun c => c.toNat == 0).reverse)

/-- The decoded user label of an element (monitor.py line 167). -/
def elemLabel (e : ReadingElement) : String := stripNul (latin1Decode e.szLabelUser)

/-- The decoded unit of an element (monitor.py line 168). -/
def elemUnit (e : ReadingElement) : String := stripNul (latin1Decode e.szUnit)

/-- The metric key of an element: `"label [unit]"` when the unit is non-empty,
else just the label (monitor.py line 175). -/
def fullKey (e : ReadingElement) : String :=
  if elemUnit e ≠ "" then elemLabel e ++ " [" ++ elemUnit e ++ "]" else elemLabel e

/-- The allow-list test `any(k in label for k in TARGET_KEYWORDS)`
(monitor.py line 174). -/
def keywordHit (label : String) : Bool :=
  TARGET_KEYWORDS.any fun k => strContains label k

/-- Processing of one reading element (monitor.py lines 166-176): skip unused
slots (`tReading == 0`) and empty labels, keep only allow-listed labels, and
record the current value under the formatted key. -/
def decodeElement (m : List (String × ℚ)) (e : ReadingElement) : List (String × ℚ) :=
  if e.tReading ≠ 0 ∧ elemLabel e ≠ "" then
    if keywordHit (elemLabel e) then dset m (fullKey e) e.value else m
  else m

/-- Model of `get_hwinfo_data` (monitor.py lines 140-182).  Returns the result
(`none` for the Python `return None`, `some metrics` for a decoded dict,
possibly empty) paired with whether `shm.close()` was executed before
returning.  The two exception situations reachable from a mapped region are a
seek past the end of the mapping and a short element read; both are swallowed
by the outer `except Exception` which returns `None` without a close. -/
def get_hwinfo_data (shm : ShmRegion) : Option (List (String × ℚ)) × Bool :=
  let h := shm.header
  if h.signature = HWINFO_SIGNATURE then
    if h.sizeOfReadingElement = 460 ∨ h.sizeOfReadingElement = 320 ∨
        h.sizeOfReadingElement = 252 then
      if h.offsetOfReadingSection ≤ SHM_MAP_SIZE then
        if h.numReadingElements ≤ shm.elements.length then
          (some ((shm.elements.take h.numReadingElements).foldl decodeElement []), true)
        else (none, false)
      else (none, false)
    else (none, true)
  else (none, true)

/-!
## monitor.py — main logging loop

`main` (monitor.py lines 190-255) ticks every 5 seconds: it calls
`get_hwinfo_data`, and only when the result is a non-empty dict (`if data:`)
builds `row_data = {"Run_ID": run_id or "N/A", "Time": timestamp, **data}`,
seeds `csv_headers` from `row_data`'s keys on the first such tick (writing the
header row, truncating the file), and appends one row per tick containing
`row_data.get(k, '')` for each header column.  A `None` result and an empty
dict both take the `else` branch, printing one fixed error line.
-/

/-- Cell values written into a CSV row: either a string or a number.  The
`DictWriter` stringification is not modelled — no claim depends on it. -/
inductive Cell where
  | str (s : String)
  | num (q : ℚ)
deriving DecidableEq

/-- The row actually written for schema `hs`: one cell per column, the
record's value for that key or the empty-string default.  Models both
monitor.py's `{k: row_data.get(k, '') for k in csv_headers}` (line 219) and
the backup monitor's `DictWriter(..., restval='')` behaviour. -/
def rowFor (hs : List String) (r : List (String × Cell)) : List Cell :=
  hs.map fun k => (dlookup k r).getD (Cell.str "")

/-- The fixed read-error line of monitor.py line 247. -/
def READ_ERROR_MSG : String := "Error reading HWiNFO. Is it running?"

/-- State of monitor.py's loop: the seeded header list (None before the first
successful tick) and the rows of the CSV file (header row included). -/
structure MainState where
  csvHeaders : Option (List String)
  file : List (List Cell)
deriving DecidableEq

/-- The loop's starting state (`csv_headers = None`, no file written yet). -/
def initMainState : MainState := ⟨none, []⟩

/-- One tick's inputs: the formatted timestamp and the decoder's return. -/
structure MainInput where
  ts : String
  data : Option (List (String × ℚ))
deriving DecidableEq

/-- Python truthiness of the decoder result: `None` and `{}` are falsy. -/
def truthyData : Option (List (String × ℚ)) → Bool
  | some (_ :: _) => true
  | _ => false

/-- Python `run_id or "N/A"` for the optional `--run-id` argument. -/
def orNA : Option String → String
  | none => "N/A"
  | some r => if r = "" then "N/A" else r

/-- The `row_data` dict of monitor.py lines 205-206: fixed `Run_ID` and `Time`
entries, then `update(data)`. -/
def rowDataOf (runId : Option String) (inp : MainInput) : List (String × Cell) :=
  dupdate (dset (dset [] "Run_ID" (Cell.str (orNA runId))) "Time" (Cell.str inp.ts))
    ((inp.data.getD []).map fun kv => (kv.1, Cell.num kv.2))

/-- One iteration of monitor.py's loop body (lines 200-247), restricted to its
observable effects: the state update and the error line printed (if any). -/
def mainTick (runId : Option String) (st : MainState) (inp : MainInput) :
    MainState × Option String :=
  if truthyData inp.data then
    let rd := rowDataOf runId inp
    match st.csvHeaders with
    | none =>
      let hs := dkeys rd
      (⟨some hs, [hs.map Cell.str, rowFor hs rd]⟩, none)
    | some hs => (⟨some hs, st.file ++ [rowFor hs rd]⟩, none)
  else (st, some READ_ERROR_MSG)

/-- Run monitor.py's loop over a list of tick inputs. -/
def mainRun (runId : Option String) (st : MainState) : List MainInput → MainState
  | [] => st
  | i :: is => mainRun runId (mainTick runId st i).1 is

/-- The ticks of a run that took the writing branch (`if data:` truthy). -/
def truthyInputs (inputs : List MainInput) : List MainInput :=
  inputs.filter fun i => truthyData i.data

/-!
## monitor_linux_backup.py — qmassa probe adapter

`get_gpu_stats_qmassa` (lines 28-192) runs the qmassa binary with a 10-second
timeout writing NDJSON to a temp file, scans the file's lines from the last
upward for a JSON object containing `devs_state`, and extracts a flat
`gpu_*`-keyed stats dict from the first device, deleting the temp file only
after the extraction runs to completion.  JSON values are modelled by `Json`;
extraction is exception-aware: an access the code leaves unguarded raises in
the model exactly where the code raises (`Except.error` in `extractStatsE`),
landing in the outer `except Exception` of lines 191-192, which returns
`(None, str(e))` before the `os.remove` of lines 180-183.
-/

/-- JSON values, numbers as rationals. -/
inductive Json where
  | null
  | bool (b : Bool)
  | num (q : ℚ)
  | str (s : String)
  | arr (xs : List Json)
  | obj (fields : List (String × Json))

/-- Lookup of a key in a JSON object (none for non-objects). -/
def jget : Json → String → Option Json
  | Json.obj fields, k => dlookup k fields
  | _, _ => none

/-- Python `d.get(k, default)` on a JSON object. -/
def jgetD (j : Json) (k : String) (d : Json) : Json := (jget j k).getD d

/-- Python truthiness of a JSON value. -/
def pyTruthy : Json → Bool
  | Json.null => false
  | Json.bool b => b
  | Json.num q => decide (q ≠ 0)
  | Json.str s => decide (s ≠ "")
  | Json.arr xs => !xs.isEmpty
  | Json.obj fs => !fs.isEmpty

/-- The numeric reading of a value accepted by `isinstance(v, (int, float))`
(Python bools are ints: `True` counts as 1). -/
def jAsNum : Json → Option ℚ
  | Json.num q => some q
  | Json.bool b => some (if b then 1 else 0)
  | _ => none

/-- Engine-name cleanup of line 133: replace `/`, `-` and space with `_`,
then lowercase. -/
def cleanEngineName (n : String) : String :=
  String.mk (n.toList.map fun c =>
    if c = '/' || c = '-' || c = ' ' then '_' else c.toLower)

/-- Field-by-field extraction of the flat GPU stats dict from the first
`devs_state` device (monitor_linux_backup.py lines 95-177), translated branch
for branch with Python's exceptions made explicit: `Except.error` marks
exactly the inputs on which the code raises — `TypeError` at an `in` test or
`len()` or `/` or `round()` on a type-confused value, `AttributeError` at a
`.get`/`.items()` on a non-dict, `KeyError` indexing a dict with the int 0 —
and control then falls to the outer `except Exception` of lines 191-192.
Guarded accesses (`isinstance` checks, truthiness tests, the in-loop guards)
become matches that skip gracefully, exactly as the code does (a non-empty
string reached by `[0]` indexing yields a one-character string that the
`isinstance(_, dict)` guards then skip).  Two documented simplifications that
preserve every observable outcome: a non-object device always raises
somewhere in lines 96-104 before anything observable happens, so it is one
raise here; and the carried string is a short stand-in for the interpreter's
`str(e)` — no claim inspects the text, only ok-versus-error is load-bearing
(any partial `gpu_stats` built before a raise is discarded by the handler). -/
def extractStatsE (device : Json) : Except String (List (String × Json)) := do
  let fields ← match device with
    | Json.obj fs => pure fs
    | _ => Except.error "device is not a dict"
  let s : List (String × Json) := []
  let s := match dlookup "drv_name" fields with
    | some v => dset s "gpu_driver" v
    | none => s
  let s := match dlookup "dev_type" fields with
    | some v => dset s "gpu_type" v
    | none => s
  let s := match dlookup "vdr_dev" fields with
    | some v => dset s "gpu_name" v
    | none => s
  let dsFields ← match dlookup "dev_stats" fields with
    | none => pure []
    | some (Json.obj g) => pure g
    | some _ => Except.error "dev_stats has no attribute get"
  let s ← match dlookup "mem_info" dsFields with
    | some mi =>
      if pyTruthy mi then
        match mi with
        | Json.arr (mem :: _) =>
          match mem with
          | Json.obj mf => do
            let smemTotal := (dlookup "smem_total" mf).getD (Json.num 0)
            let smemUsed := (dlookup "smem_used" mf).getD (Json.num 0)
            let vramTotal := (dlookup "vram_total" mf).getD (Json.num 0)
            let vramUsed := (dlookup "vram_used" mf).getD (Json.num 0)
            let s ← if pyTruthy smemTotal || pyTruthy smemUsed then
                match jAsNum smemUsed, jAsNum smemTotal with
                | some u, some t =>
                  pure (dset (dset s "gpu_smem_used_mb"
                      (Json.num (pyRound (u / 1048576) 2)))
                    "gpu_smem_total_mb" (Json.num (pyRound (t / 1048576) 2)))
                | _, _ => Except.error "unsupported operand types for smem division"
              else pure s
            if pyTruthy vramTotal || pyTruthy vramUsed then
              match jAsNum vramUsed, jAsNum vramTotal with
              | some u, some t =>
                pure (dset (dset s "gpu_vram_used_mb"
                    (Json.num (pyRound (u / 1048576) 2)))
                  "gpu_vram_total_mb" (Json.num (pyRound (t / 1048576) 2)))
              | _, _ => Except.error "unsupported operand types for vram division"
            else pure s
          | _ => Except.error "mem entry has no attribute get"
        | _ => Except.error "mem_info is not subscriptable"
      else pure s
    | none => pure s
  let s ← match dlookup "eng_usage" dsFields with
    | some eu =>
      if pyTruthy eu then
        match eu with
        | Json.obj engs =>
          let acc := engs.foldl (fun (acc : List (String × Json) × ℚ × ℕ) kv =>
            match kv.2 with
            | Json.arr (u :: _) =>
              match jAsNum u with
              | some usage =>
                (dset acc.1 ("gpu_engine_" ++ cleanEngineName kv.1 ++ "_pct")
                   (Json.num (pyRound usage 2)),
                 acc.2.1 + usage, acc.2.2 + 1)
              | none => acc
            | _ => acc) (s, 0, 0)
          pure (if acc.2.2 > 0 then
              dset acc.1 "gpu_engines_avg_pct"
                (Json.num (pyRound (acc.2.1 / (acc.2.2 : ℚ)) 2))
            else acc.1)
        | _ => Except.error "eng_usage has no attribute items"
      else pure s
    | none => pure s
  let s ← match dlookup "freqs" dsFields with
    | some fq =>
      if pyTruthy fq then
        match fq with
        | Json.arr (fl :: _) =>
          if pyTruthy fl then
            match fl with
            | Json.arr (f :: _) =>
              match f with
              | Json.obj ff =>
                let s := match dlookup "act_freq" ff with
                  | some v => dset s "gpu_freq_actual_mhz" v
                  | none => s
                let s := match dlookup "cur_freq" ff with
                  | some v => dset s "gpu_freq_requested_mhz" v
                  | none => s
                let s := match dlookup "max_freq" ff with
                  | some v => dset s "gpu_freq_max_mhz" v
                  | none => s
                pure (match dlookup "min_freq" ff with
                  | some v => dset s "gpu_freq_min_mhz" v
                  | none => s)
              | _ => pure s
            | Json.str _ => pure s
            | _ => Except.error "freq list is not subscriptable"
          else pure s
        | Json.str _ => pure s
        | _ => Except.error "freqs is not subscriptable"
      else pure s
    | none => pure s
  let s ← match dlookup "power" dsFields with
    | some pw =>
      if pyTruthy pw then
        match pw with
        | Json.arr (pwr :: _) =>
          match pwr with
          | Json.obj pf => do
            let s ← match dlookup "gpu_cur_power" pf with
              | some v =>
                match jAsNum v with
                | some q => pure (dset s "gpu_power_w" (Json.num (pyRound q 2)))
                | none => Except.error "gpu_cur_power does not round"
              | none => pure s
            match dlookup "pkg_cur_power" pf with
            | some v =>
              match jAsNum v with
              | some q => pure (dset s "gpu_package_power_w" (Json.num (pyRound q 2)))
              | none => Except.error "pkg_cur_power does not round"
            | none => pure s
          | _ => pure s
        | Json.str _ => pure s
        | _ => Except.error "power is not subscriptable"
      else pure s
    | none => pure s
  let s ← match dlookup "temps" dsFields with
    | some tv =>
      if pyTruthy tv then
        match tv with
        | Json.arr tvs =>
          pure (tvs.enum.foldl (fun s iv =>
            match jAsNum iv.2 with
            | some q =>
              dset s ("gpu_temp_" ++ toString iv.1 ++ "_c") (Json.num (pyRound q 1))
            | none => s) s)
        | Json.str _ => pure s
        | Json.obj _ => pure s
        | _ => Except.error "temps has no len"
      else pure s
    | none => pure s
  match dlookup "fans" dsFields with
  | some fv =>
    if pyTruthy fv then
      match fv with
      | Json.arr fvs =>
        pure (fvs.enum.foldl (fun s iv =>
          match jAsNum iv.2 with
          | some q =>
            dset s ("gpu_fan_" ++ toString iv.1 ++ "_rpm")
              (Json.num ((truncQ q : ℤ) : ℚ))
          | none => s) s)
      | Json.str _ => pure s
      | Json.obj _ => pure s
      | _ => Except.error "fans has no len"
    else pure s
  | none => pure s

/-- Outcome of the `subprocess.run` call (lines 49-54): either the 10-second
timeout fired (`subprocess.TimeoutExpired`) or the process completed with an
exit code and captured stderr text. -/
inductive ProcResult where
  | timeout
  | done (returncode : Int) (stderr : String)
deriving DecidableEq

/-- The hard timeout passed to `subprocess.run` (line 53). -/
def QMASSA_TIMEOUT_SECONDS : ℕ := 10

/-- One line of the NDJSON temp file, as the scan of lines 70-80 classifies
it: `junk` is a line that is blank, does not start with `{`, fails to parse,
or parses to an object without `devs_state`; `record ds` is a line parsing
to an object whose `devs_state` value is the JSON value `ds` — any shape, the
code only validates it afterwards (lines 89-93). -/
inductive QLine where
  | junk
  | record (devsState : Json)

/-- The reversed-order scan of lines 70-80: the last line holding a
`devs_state` object wins. -/
def firstRecord : List QLine → Option Json
  | [] => none
  | QLine.junk :: t => firstRecord t
  | QLine.record ds :: _ => some ds

/-- Python `for line in reversed(lines): ... break` over the temp file. -/
def findRecord (ls : List QLine) : Option Json := firstRecord ls.reverse

/-- Environment of one adapter call: the subprocess outcome, and the temp
file's state right after the subprocess step (`none` = file does not exist;
qmassa may create or rewrite it even when it fails). -/
structure QmassaEnv where
  run : ProcResult
  fileAfterRun : Option (List QLine)

/-- Model of `get_gpu_stats_qmassa` (monitor_linux_backup.py lines 28-192).
First component: the `(gpu_stats_or_None, error_message_or_None)` pair the
Python function returns.  Second component: the temp file's state when the
function returns (`none` iff the file does not exist then); `os.remove` is
executed only when the extraction runs to completion (lines 179-183) — a
type-confused `devs_state`/device that makes lines 90-177 raise lands in the
outer handler, which returns `(None, str(e))` with the file untouched. -/
def get_gpu_stats_qmassa (env : QmassaEnv) :
    (Option (List (String × Json)) × Option String) × Option (List QLine) :=
  match env.run with
  | ProcResult.timeout => ((none, some "qmassa timed out"), env.fileAfterRun)
  | ProcResult.done rc stderr =>
    if rc ≠ 0 then
      ((none, some (if stderr ≠ "" then stderr.trim else "Exit code " ++ toString rc)),
        env.fileAfterRun)
    else
      match env.fileAfterRun with
      | none => ((none, some "qmassa did not create output file"), none)
      | some lines =>
        match findRecord lines with
        | none => ((none, some "No valid GPU data in qmassa output"), some lines)
        | some ds =>
          if !(pyTruthy ds) then ((none, some "No devices in qmassa output"), some lines)
          else
            match ds with
            | Json.arr (device :: _) =>
              match extractStatsE device with
              | Except.error e => ((none, some e), some lines)
              | Except.ok stats =>
                ((if stats.isEmpty then none else some stats, none), none)
            | _ =>
              -- truthy non-array devs_state: num/bool raise at the guard's
              -- len(), a non-empty object at devs_state[0], a non-empty
              -- string when its one-character-string device reaches line 96;
              -- all land in the outer handler with the file untouched
              ((none, some "devs_state is not subscriptable"), some lines)

/-!
## monitor_linux_backup.py — tick construction and error-transition flag

Each loop iteration (lines 306-379) builds one `row` dict from the OS
readers, merges the qmassa stats when the adapter succeeded, and maintains
`qmassa_error_shown`: the error line is printed only when the adapter failed
with a truthy message and the flag is clear; a successful (metrics-bearing)
adapter call clears the flag.
-/

/-- The `psutil.sensors_battery()` reading (None when no battery).
`secsleft` is the remaining-seconds value; psutil's `POWER_TIME_UNLIMITED`
is the constant -2. -/
structure BatteryInfo where
  percent : ℚ
  powerPlugged : Bool
  secsleft : Int
deriving DecidableEq

/-- Model of `get_battery_stats` (lines 195-207); the argument is the psutil
reading, `none` covering both `battery is None` and the swallowed psutil
exception. -/
def get_battery_stats (b : Option BatteryInfo) : List (String × Cell) :=
  match b with
  | none => []
  | some bat =>
    let s := dset [] "battery_percent" (Cell.num (pyRound bat.percent 1))
    let s := dset s "battery_plugged" (Cell.num (if bat.powerPlugged then 1 else 0))
    if bat.secsleft ≠ 0 ∧ bat.secsleft ≠ -2 ∧ bat.secsleft > 0 then
      dset s "battery_mins_left" (Cell.num (pyRound ((bat.secsleft : ℚ) / 60) 1))
    else s

/-- The non-qmassa inputs of one tick: the psutil readings (lines 310-329).
`cpuTemp` is the return of `get_cpu_temperature()` (its psutil internals are
external collaborators). -/
structure TickEnv where
  cpuPercent : ℚ
  memUsed : ℚ
  memTotal : ℚ
  memPercent : ℚ
  cpuTemp : Option ℚ
  battery : Option BatteryInfo
deriving DecidableEq

/-- A qmassa stats dict as a cell-valued record fragment (the row holds both
strings and numbers; JSON values land in the row unchanged). -/
def statsToCells (st : List (String × Json)) : List (String × Cell) :=
  st.map fun kv => (kv.1,
    match kv.2 with
    | Json.str s => Cell.str s
    | Json.num q => Cell.num q
    | Json.bool b => Cell.num (if b then 1 else 0)
    | Json.null => Cell.str ""
    | Json.arr _ => Cell.str ""
    | Json.obj _ => Cell.str "")

/-- The row built by lines 307-329 before the qmassa merge: `run_id`,
`timestamp`, CPU, memory, optional CPU temperature (note the truthiness test
`if cpu_temp:` also drops an exact 0.0 reading), and the battery entries. -/
def baseRow (runId ts : String) (env : TickEnv) : List (String × Cell) :=
  let r := dset [] "run_id" (Cell.str runId)
  let r := dset r "timestamp" (Cell.str ts)
  let r := dset r "cpu_percent" (Cell.num env.cpuPercent)
  let r := dset r "memory_used_mb" (Cell.num (pyRound (env.memUsed / 1048576) 2))
  let r := dset r "memory_total_mb" (Cell.num (pyRound (env.memTotal / 1048576) 2))
  let r := dset r "memory_percent" (Cell.num env.memPercent)
  let r := match env.cpuTemp with
    | some t => if t ≠ 0 then dset r "cpu_temp_c" (Cell.num t) else r
    | none => r
  dupdate r (get_battery_stats env.battery)

/-- The `qmassa_error_shown` update and print decision of lines 332-339, as a
function of the adapter's returned pair.  Result: (new flag, whether the
error line was printed this tick).  `elif gpu_error and not shown` — an empty
error string is falsy and prints nothing. -/
def qmassaFlagStep (shown : Bool)
    (r : Option (List (String × Json)) × Option String) : Bool × Bool :=
  match r.1 with
  | some _ => (false, false)
  | none =>
    match r.2 with
    | some err =>
      if err ≠ "" then (if shown then (true, false) else (true, true))
      else (shown, false)
    | none => (shown, false)

/-- The per-tick printed-diagnostic trace over a run of adapter results,
threading `qmassa_error_shown`. -/
def runFlags (shown : Bool) :
    List (Option (List (String × Json)) × Option String) → List Bool
  | [] => []
  | r :: rs =>
    let p := qmassaFlagStep shown r
    p.2 :: runFlags p.1 rs

/-- The qmassa part of one tick (lines 332-339): merge the stats into the row
when present, update the flag, report the printed line and the temp file
state.  `q = none` models `has_gpu_monitor` being false. -/
def gpuStep (row : List (String × Cell)) (shown : Bool) (q : Option QmassaEnv) :
    List (String × Cell) × Bool × Option String × Option (List QLine) :=
  match q with
  | none => (row, shown, none, none)
  | some env =>
    let res := get_gpu_stats_qmassa env
    let fp := qmassaFlagStep shown res.1
    let row' := match res.1.1 with
      | some st => dupdate row (statsToCells st)
      | none => row
    (row', fp.1,
      (match res.1.1 with
       | some _ => none
       | none => match res.1.2 with
         | some err => if err ≠ "" ∧ shown = false then
             some ("qmassa error: " ++ err) else none
         | none => none),
      res.2)

/-!
## monitor_linux_backup.py — schema-evolving CSV recorder

Lines 341-359: the first record seeds `all_columns` from its own key order
and writes the header plus the first row (truncating the file); every later
record extends `all_columns` by `sorted(new_keys)` — the file's header row is
NOT rewritten (the comment at line 355 acknowledges this) — and appends one
row with a cell per current column (`DictWriter` with `restval=''` and
`extrasaction='ignore'`).
-/

/-- Cell-valued record rows fed to the recorder. -/
abbrev Row := List (String × Cell)

/-- Recorder state: the `first_row` flag, the in-memory `all_columns` schema,
and the CSV file's rows (header row included). -/
structure MonState where
  firstRow : Bool
  allColumns : List String
  file : List (List Cell)
deriving DecidableEq

/-- The recorder's start state (lines 299-300). -/
def initRec : MonState := ⟨true, [], []⟩

/-- The schema extension of lines 351-354: append the sorted set of keys not
already in the schema.  (`set(...) - set(...)` deduplicates, hence `dedup`;
rows built from Python dicts never have duplicate keys anyway.) -/
def schemaStepL (sch : List String) (r : Row) : List String :=
  sch ++ sortStrings (((dkeys r).filter fun k => !smemb k sch).dedup)

/-- One recorder step (lines 341-359). -/
def recTick (st : MonState) (r : Row) : MonState :=
  if st.firstRow then
    let cols := dkeys r
    ⟨false, cols, [cols.map Cell.str, rowFor cols r]⟩
  else
    let cols := schemaStepL st.allColumns r
    ⟨false, cols, st.file ++ [rowFor cols r]⟩

/-- Feed a list of records to the recorder. -/
def runRec (st : MonState) : List Row → MonState
  | [] => st
  | r :: rs => runRec (recTick st r) rs

/-- The per-record schema trace from a given starting schema (non-first
records). -/
def schemasFromS (sch : List String) : List Row → List (List String)
  | [] => []
  | r :: rs =>
    let s := schemaStepL sch r
    s :: schemasFromS s rs

/-- The schema in effect when each record of a run is written: the first
record's own key order, then `schemaStepL` steps. -/
def schemasOf : List Row → List (List String)
  | [] => []
  | r :: rs => dkeys r :: schemasFromS (dkeys r) rs

/-!
## Basic dictionary lemmas
-/

theorem dlookup_dset_self {α : Type} (d : List (String × α)) (k : String) (v : α) :
    dlookup k (dset d k v) = some v := by
  induction d with
  | nil => simp [dset, dlookup]
  | cons h t ih =>
    obtain ⟨k', v'⟩ := h
    by_cases hk : k' = k
    · subst hk; simp [dset, dlookup]
    · simp [dset, dlookup, hk, ih]

theorem mem_dkeys_dset {α : Type} (d : List (String × α)) (k x : String) (v : α) :
    x ∈ dkeys (dset d k v) → x ∈ dkeys d ∨ x = k := by
  induction d with
  | nil => intro h; simp [dset, dkeys] at h; exact Or.inr h
  | cons hd t ih =>
    obtain ⟨k', v'⟩ := hd
    intro h
    simp only [dset] at h
    by_cases hk : k' = k
    · rw [if_pos hk] at h
      simp only [dkeys, List.map_cons, List.mem_cons] at h ⊢
      tauto
    · rw [if_neg hk] at h
      simp only [dkeys, List.map_cons, List.mem_cons] at h ⊢
      rcases h with h | h
      · tauto
      · rcases ih h with h' | h' <;> tauto

theorem mem_dkeys_dupdate {α : Type} (u d : List (String × α)) (x : String) :
    x ∈ dkeys (dupdate d u) → x ∈ dkeys d ∨ x ∈ dkeys u := by
  induction u generalizing d with
  | nil => intro h; exact Or.inl h
  | cons kv t ih =>
    intro h
    simp only [dupdate, List.foldl_cons] at h
    rcases ih (dset d kv.1 kv.2) h with h1 | h1
    · rcases mem_dkeys_dset _ _ _ _ h1 with h2 | h2
      · exact Or.inl h2
      · right; simp [dkeys, h2]
    · right; simp only [dkeys, List.map_cons, List.mem_cons]; exact Or.inr h1

/-!
## Recorder lemmas (monitor_linux_backup.py lines 341-359)
-/

theorem runRec_append (a b : List Row) (st : MonState) :
    runRec st (a ++ b) = runRec (runRec st a) b := by
  induction a generalizing st with
  | nil => rfl
  | cons r rs ih => simp only [List.cons_append, runRec]; exact ih _

theorem recTick_firstRow (st : MonState) (r : Row) : (recTick st r).firstRow = false := by
  unfold recTick; split <;> rfl

theorem runRec_firstRow (rs : List Row) (st : MonState) (h : st.firstRow = false) :
    (runRec st rs).firstRow = false := by
  induction rs generalizing st with
  | nil => exact h
  | cons r t ih => exact ih _ (recTick_firstRow st r)

theorem recTick_allColumns (st : MonState) (r : Row) (h : st.firstRow = false) :
    (recTick st r).allColumns = schemaStepL st.allColumns r := by
  unfold recTick; rw [if_neg (by simp [h])]

theorem allColumns_grow (rs : List Row) (st : MonState) (h : st.firstRow = false) :
    st.allColumns <+: (runRec st rs).allColumns := by
  induction rs generalizing st with
  | nil => exact ⟨[], List.append_nil _⟩
  | cons r t ih =>
    have h1 : st.allColumns <+: (recTick st r).allColumns := by
      rw [recTick_allColumns st r h]
      exact ⟨_, rfl⟩
    exact h1.trans (ih _ (recTick_firstRow st r))

/-!
## Main-loop lemmas (monitor.py lines 190-255)
-/

theorem mainRun_append (runId : Option String) (a b : List MainInput) (st : MainState) :
    mainRun runId st (a ++ b) = mainRun runId (mainRun runId st a) b := by
  induction a generalizing st with
  | nil => rfl
  | cons i is ih => simp only [List.cons_append, mainRun]; exact ih _

theorem mainTick_headers_some (runId : Option String) (st : MainState) (i : MainInput)
    (hs : List String) (h : st.csvHeaders = some hs) :
    (mainTick runId st i).1.csvHeaders = some hs := by
  unfold mainTick
  split
  · rw [h]
  · exact h

theorem mainRun_headers_some (runId : Option String) (is : List MainInput) (st : MainState)
    (hs : List String) (h : st.csvHeaders = some hs) :
    (mainRun runId st is).csvHeaders = some hs := by
  induction is generalizing st with
  | nil => exact h
  | cons i t ih => exact ih _ (mainTick_headers_some runId st i hs h)

/-- C1: Schema monotonicity.  In both monitors the column list in effect at
any point of a run is a prefix of the column list in effect at any later
point (instantiate `more` with the one-record continuation to get the
record-i versus record-i+1 form); hence once a column enters the schema it is
never removed or reordered.  In monitor_linux_backup.py the schema only grows
by appending sorted new keys; in monitor.py the header list is frozen at the
first written record. -/
theorem schema_monotone :
    (∀ (rows more : List Row),
      (runRec initRec rows).allColumns <+: (runRec initRec (rows ++ more)).allColumns) ∧
    (∀ (runId : Option String) (inputs more : List MainInput),
      ((mainRun runId initMainState inputs).csvHeaders.getD []) <+:
        ((mainRun runId initMainState (inputs ++ more)).csvHeaders.getD [])) := by
  constructor
  · intro rows more
    rw [runRec_append]
    cases hr : rows with
    | nil =>
      cases more with
      | nil => exact ⟨[], List.append_nil _⟩
      | cons m ms => exact ⟨_, rfl⟩
    | cons r rs =>
      apply allColumns_grow
      show (runRec (recTick initRec r) rs).firstRow = false
      exact runRec_firstRow _ _ (recTick_firstRow _ _)
  · intro runId inputs more
    rw [mainRun_append]
    cases h : (mainRun runId initMainState inputs).csvHeaders with
    | none => exact ⟨_, rfl⟩
    | some hs =>
      rw [mainRun_headers_some runId more _ hs h]

/-!
## Decoder claims (monitor.py)
-/

/-- Byte list of an ASCII string, for constructing concrete reading elements
(no NUL padding; `stripNul` makes padding irrelevant). -/
def strToBytes (s : String) : List Nat := s.toList.map Char.toNat

/-- A block with a wrong signature, for the C2 witness. -/
def shmBadSig : ShmRegion := ⟨⟨[0, 0, 0, 0], 0, 0, 0, 0, 0, 0, 0, 460, 0⟩, []⟩

/-- C2: a block whose signature is not `HWiS`, or whose declared
reading-element size is none of 460/320/252, decodes to the no-data outcome
`none` (never a raised fault — the model is total — and never a partial
metric set). -/
theorem hwinfo_bad_block_no_data (shm : ShmRegion)
    (h : shm.header.signature ≠ HWINFO_SIGNATURE ∨
      ¬(shm.header.sizeOfReadingElement = 460 ∨ shm.header.sizeOfReadingElement = 320 ∨
        shm.header.sizeOfReadingElement = 252)) :
    (get_hwinfo_data shm).1 = none := by
  simp only [get_hwinfo_data]
  rcases h with h | h
  · rw [if_neg h]
  · by_cases hs : shm.header.signature = HWINFO_SIGNATURE
    · rw [if_pos hs, if_neg h]
    · rw [if_neg hs]

/-- Witness for C2 at a concrete bad-signature block. -/
theorem hwinfo_bad_block_no_data_witness : (get_hwinfo_data shmBadSig).1 = none :=
  hwinfo_bad_block_no_data shmBadSig (Or.inl (by decide))

/-- The single reading element of end-to-end scenario A: tag 1, user label
`CPU Package Power`, unit `W`, current value 12.5. -/
def scenarioElement : ReadingElement :=
  ⟨1, 0, 0, strToBytes "CPU Package Power", strToBytes "CPU Package Power",
   strToBytes "W", 25 / 2, 0, 0, 0⟩

/-- The scenario-A block: signature `HWiS`, element size 460, one element. -/
def scenarioShmA : ShmRegion :=
  ⟨⟨HWINFO_SIGNATURE, 1, 0, 0, 0, 0, 0, 0, 460, 1⟩, [scenarioElement]⟩

/-- C3: an element with non-zero tag, non-empty decoded label and an
allow-listed label yields the sample keyed `label [unit]` (or bare label for
an empty unit — that case is inside `fullKey`) with the element's current
value; and scenario A end-to-end decodes to exactly
`{"CPU Package Power [W]": 12.5}` with the mapping closed. -/
theorem hwinfo_element_sample (m : List (String × ℚ)) (e : ReadingElement)
    (h1 : e.tReading ≠ 0) (h2 : elemLabel e ≠ "")
    (h3 : keywordHit (elemLabel e) = true) :
    dlookup (fullKey e) (decodeElement m e) = some e.value ∧
    get_hwinfo_data scenarioShmA = (some [("CPU Package Power [W]", (25 : ℚ) / 2)], true) := by
  constructor
  · unfold decodeElement
    rw [if_pos ⟨h1, h2⟩, if_pos h3]
    exact dlookup_dset_self m (fullKey e) e.value
  · rfl

/-- Witness for C3: the scenario element satisfies the hypotheses and its
sample is found in the decoded dict. -/
theorem hwinfo_element_sample_witness :
    dlookup (fullKey scenarioElement) (decodeElement [] scenarioElement) =
      some scenarioElement.value :=
  (hwinfo_element_sample [] scenarioElement (by decide) (by decide) (by decide)).1

/-- A block that makes the decoder raise: valid signature and size but a
reading-section offset beyond the 500000-byte mapping, so `shm.seek` raises
`ValueError`, caught by the bare handler which returns without closing. -/
def shmExn : ShmRegion := ⟨⟨HWINFO_SIGNATURE, 0, 0, 0, 0, 0, 0, 600000, 460, 0⟩, []⟩

/-- Counterexample to C8 as stated: on the exception path the mapping is not
closed before returning. -/
theorem hwinfo_close_skipped_on_exn : (get_hwinfo_data shmExn).2 = false := by decide

/-- C8 amended: the mapping is closed on the signature-mismatch path, the
unsupported-size path and the whole success path (empty-after-filter
included); it is left unclosed exactly when a valid-signature, supported-size
block makes the read/decode raise (seek past the mapping, or more declared
elements than fit), the bare `except` then returning `None` with no
`shm.close()` (the mapping is reclaimed only by garbage collection). -/
theorem hwinfo_close_characterization (shm : ShmRegion) :
    (get_hwinfo_data shm).2 = false ↔
      (shm.header.signature = HWINFO_SIGNATURE ∧
       (shm.header.sizeOfReadingElement = 460 ∨ shm.header.sizeOfReadingElement = 320 ∨
        shm.header.sizeOfReadingElement = 252) ∧
       (SHM_MAP_SIZE < shm.header.offsetOfReadingSection ∨
        shm.elements.length < shm.header.numReadingElements)) := by
  simp only [get_hwinfo_data]
  split_ifs with h1 h2 h3 h4
  · constructor
    · intro h; simp at h
    · intro h; exact absurd h.2.2 (by omega)
  · constructor
    · intro _; exact ⟨h1, h2, by omega⟩
    · intro _; rfl
  · constructor
    · intro _; exact ⟨h1, h2, by omega⟩
    · intro _; rfl
  · constructor
    · intro h; simp at h
    · intro h; exact absurd h.2.1 h2
  · constructor
    · intro h; simp at h
    · intro h; exact absurd h.1 h1

/-!
## Row completeness and schema extension
-/

/-- The backup recorder's whole CSV file, predicted record by record: the
header is the first record's keys; each data row has one cell per column of
the schema in effect for that record (looked up in the record, empty-string
default). -/
def recFileOf : List Row → List (List Cell)
  | [] => []
  | r :: rs => ((dkeys r).map Cell.str) :: List.zipWith rowFor (schemasOf (r :: rs)) (r :: rs)

theorem runRec_file_from (rows : List Row) (sch : List String) (f : List (List Cell)) :
    (runRec ⟨false, sch, f⟩ rows).file =
      f ++ List.zipWith rowFor (schemasFromS sch rows) rows := by
  induction rows generalizing sch f with
  | nil => simp [runRec, schemasFromS]
  | cons r rs ih =>
    show (runRec (recTick ⟨false, sch, f⟩ r) rs).file = _
    have hrt : recTick ⟨false, sch, f⟩ r =
        ⟨false, schemaStepL sch r, f ++ [rowFor (schemaStepL sch r) r]⟩ := rfl
    rw [hrt, ih]
    simp [schemasFromS]

/-- monitor.py's whole CSV file over the truthy (written) ticks: header from
the first truthy tick's `row_data` keys, then one row per truthy tick with a
cell per header column. -/
def fileOfTruthy (runId : Option String) : List MainInput → List (List Cell)
  | [] => []
  | t :: ts =>
    ((dkeys (rowDataOf runId t)).map Cell.str) ::
      (t :: ts).map fun i => rowFor (dkeys (rowDataOf runId t)) (rowDataOf runId i)

/-- monitor.py's predicted file for a run. -/
def mainFileOf (runId : Option String) (inputs : List MainInput) : List (List Cell) :=
  fileOfTruthy runId (truthyInputs inputs)

theorem mainRun_file_some (runId : Option String) (inputs : List MainInput)
    (st : MainState) (hs : List String) (h : st.csvHeaders = some hs) :
    (mainRun runId st inputs).file =
      st.file ++ (truthyInputs inputs).map fun i => rowFor hs (rowDataOf runId i) := by
  induction inputs generalizing st with
  | nil => simp [mainRun, truthyInputs]
  | cons i is ih =>
    show (mainRun runId (mainTick runId st i).1 is).file = _
    by_cases ht : truthyData i.data
    · have h1 : (mainTick runId st i).1 =
          ⟨some hs, st.file ++ [rowFor hs (rowDataOf runId i)]⟩ := by
        simp [mainTick, ht, h]
      rw [h1, ih _ rfl]
      simp [truthyInputs, List.filter_cons, ht]
    · have h1 : (mainTick runId st i).1 = st := by
        simp [mainTick, ht]
      rw [h1, ih _ h]
      simp [truthyInputs, List.filter_cons, ht]

theorem mainRun_file_none (runId : Option String) (inputs : List MainInput) :
    (mainRun runId ⟨none, []⟩ inputs).file = mainFileOf runId inputs := by
  induction inputs with
  | nil => rfl
  | cons i is ih =>
    show (mainRun runId (mainTick runId ⟨none, []⟩ i).1 is).file = _
    by_cases ht : truthyData i.data
    · have h1 : (mainTick runId ⟨none, []⟩ i).1 =
          ⟨some (dkeys (rowDataOf runId i)),
           [(dkeys (rowDataOf runId i)).map Cell.str,
            rowFor (dkeys (rowDataOf runId i)) (rowDataOf runId i)]⟩ := by
        simp [mainTick, ht]
      rw [h1, mainRun_file_some runId is _ _ rfl]
      unfold mainFileOf
      simp [truthyInputs, List.filter_cons, ht, fileOfTruthy]
    · have h1 : (mainTick runId ⟨none, []⟩ i).1 = ⟨none, []⟩ := by
        simp [mainTick, ht]
      rw [h1, ih]
      unfold mainFileOf
      simp [truthyInputs, List.filter_cons, ht]

/-- C5: row completeness.  The full file layout of both recorders: every
emitted data row is exactly `rowFor` of the schema in effect when it was
written — one cell per current column, the record's value for that key or the
empty-string default (`row_data.get(k, '')` in monitor.py, `restval=''` in
the backup monitor) — never an omitted cell. -/
theorem row_completeness :
    (∀ rows : List Row, (runRec initRec rows).file = recFileOf rows) ∧
    (∀ (runId : Option String) (inputs : List MainInput),
      (mainRun runId initMainState inputs).file = mainFileOf runId inputs) := by
  constructor
  · intro rows
    cases rows with
    | nil => rfl
    | cons r rs =>
      show (runRec (recTick initRec r) rs).file = _
      have h1 : recTick initRec r =
          ⟨false, dkeys r, [(dkeys r).map Cell.str, rowFor (dkeys r) r]⟩ := rfl
      rw [h1, runRec_file_from]
      simp [recFileOf, schemasOf]
  · intro runId inputs
    exact mainRun_file_none runId inputs

/-!
## Schema-extension scenario (claim C4)
-/

/-- A tick-1-through-4 record of scenario D: keys `run_id`, `timestamp`,
`cpu_percent`, `memory_mb`. -/
def rowT14 : Row :=
  [("run_id", Cell.str "r0"), ("timestamp", Cell.str "t"),
   ("cpu_percent", Cell.num 10), ("memory_mb", Cell.num 100)]

/-- The tick-5 record: the same keys plus `gpu_power_w`. -/
def rowT5 : Row := rowT14 ++ [("gpu_power_w", Cell.num 5)]

/-- The five records of scenario D. -/
def scenarioD : List Row := [rowT14, rowT14, rowT14, rowT14, rowT5]

/-- The header scenario D claims the file ends up with. -/
def claimedHeaderD : List String :=
  ["run_id", "timestamp", "cpu_percent", "memory_mb", "gpu_power_w"]

/-- A first record, for exhibiting the sorted-versus-discovery order. -/
def rowKeysAB : Row := [("run_id", Cell.str "r0"), ("timestamp", Cell.str "t")]

/-- A second record introducing two new keys in discovery order `b_key`,
`a_key`. -/
def rowKeysBA : Row := rowKeysAB ++ [("b_key", Cell.num 1), ("a_key", Cell.num 2)]

/-- Counterexample to C4 as stated: running scenario D, the file's header row
is not the claimed five-column header (it stays the four columns written at
tick 1 — the header is never rewritten), row 1 has only four cells (no
`gpu_power_w` placeholder), and two new keys arriving in discovery order
`b_key`, `a_key` are appended sorted, not in discovery order. -/
theorem scenarioD_counterexample :
    (runRec initRec scenarioD).file.head? ≠ some (claimedHeaderD.map Cell.str) ∧
    ((runRec initRec scenarioD).file.head?.map List.length) = some 4 ∧
    (((runRec initRec scenarioD).file.get? 1).map List.length) = some 4 ∧
    (runRec initRec [rowKeysAB, rowKeysBA]).allColumns ≠
      ["run_id", "timestamp", "b_key", "a_key"] ∧
    (runRec initRec [rowKeysAB, rowKeysBA]).allColumns =
      ["run_id", "timestamp", "a_key", "b_key"] := by
  refine ⟨by decide, by decide, by decide, by decide, by decide⟩

/-- C4 amended: on every record after the first, each metric key not already
in the in-memory schema is appended — in sorted order of the tick's new keys,
not discovery order — and is accepted for writing (the appended row covers
the extended schema); but the file's header row written at the first record
is never rewritten: in scenario D the header stays
`[run_id, timestamp, cpu_percent, memory_mb]`, rows 1-4 have no
`gpu_power_w` cell at all, while the in-memory schema does become the claimed
five-column list and row 5 carries the `gpu_power_w` value.  (In monitor.py
the header is frozen at the first record, so later new keys are dropped, not
appended.) -/
theorem schema_extension_amended :
    (∀ (st : MonState) (r : Row), st.firstRow = false →
      (recTick st r).allColumns =
        st.allColumns ++
          sortStrings (((dkeys r).filter fun k => !smemb k st.allColumns).dedup) ∧
      (recTick st r).file = st.file ++ [rowFor (schemaStepL st.allColumns r) r]) ∧
    (runRec initRec scenarioD).allColumns = claimedHeaderD ∧
    (runRec initRec scenarioD).file.head? = some ((claimedHeaderD.take 4).map Cell.str) ∧
    (runRec initRec scenarioD).file.get? 5 =
      some [Cell.str "r0", Cell.str "t", Cell.num 10, Cell.num 100, Cell.num 5] ∧
    (∀ (runId : Option String) (st : MainState) (inp : MainInput) (hs : List String),
      st.csvHeaders = some hs → (mainTick runId st inp).1.csvHeaders = some hs) := by
  refine ⟨?_, by decide, by decide, by decide, ?_⟩
  · intro st r h
    unfold recTick
    rw [if_neg (by simp [h])]
    exact ⟨rfl, rfl⟩
  · intro runId st inp hs h
    exact mainTick_headers_some runId st inp hs h

/-- Witness for the amended C4 at a concrete second record. -/
theorem schema_extension_amended_witness :
    (recTick (recTick initRec rowT14) rowT5).allColumns =
      (recTick initRec rowT14).allColumns ++
        sortStrings (((dkeys rowT5).filter
          fun k => !smemb k (recTick initRec rowT14).allColumns).dedup) :=
  (schema_extension_amended.1 (recTick initRec rowT14) rowT5 rfl).1

/-!
## GPU-failure claims (monitor_linux_backup.py)
-/

/-- Is the key in the probe's fixed `gpu_` namespace? -/
def isGpuKey (k : String) : Bool := startsWithChars k.toList ("gpu_".toList)

/-- The keys the non-qmassa part of a tick row can carry. -/
def NONGPU_KEYS : List String :=
  ["run_id", "timestamp", "cpu_percent", "memory_used_mb", "memory_total_mb",
   "memory_percent", "cpu_temp_c", "battery_percent", "battery_plugged",
   "battery_mins_left"]

theorem battery_keys (b : Option BatteryInfo) (x : String)
    (h : x ∈ dkeys (get_battery_stats b)) :
    x = "battery_percent" ∨ x = "battery_plugged" ∨ x = "battery_mins_left" := by
  cases b with
  | none => simp [get_battery_stats, dkeys] at h
  | some bat =>
    simp only [get_battery_stats] at h
    split at h
    · rcases mem_dkeys_dset _ _ _ _ h with h | h
      · rcases mem_dkeys_dset _ _ _ _ h with h | h
        · rcases mem_dkeys_dset _ _ _ _ h with h | h
          · simp [dkeys] at h
          · tauto
        · tauto
      · tauto
    · rcases mem_dkeys_dset _ _ _ _ h with h | h
      · rcases mem_dkeys_dset _ _ _ _ h with h | h
        · simp [dkeys] at h
        · tauto
      · tauto

theorem baseRow_keys (runId ts : String) (env : TickEnv) (x : String)
    (h : x ∈ dkeys (baseRow runId ts env)) : x ∈ NONGPU_KEYS := by
  simp only [baseRow] at h
  rcases mem_dkeys_dupdate _ _ _ h with h | h
  · have base : ∀ y, y ∈ dkeys (dset (dset (dset (dset (dset (dset
        ([] : List (String × Cell)) "run_id" (Cell.str runId)) "timestamp" (Cell.str ts))
        "cpu_percent" (Cell.num env.cpuPercent))
        "memory_used_mb" (Cell.num (pyRound (env.memUsed / 1048576) 2)))
        "memory_total_mb" (Cell.num (pyRound (env.memTotal / 1048576) 2)))
        "memory_percent" (Cell.num env.memPercent)) → y ∈ NONGPU_KEYS := by
      intro y hy
      rcases mem_dkeys_dset _ _ _ _ hy with hy | rfl
      · rcases mem_dkeys_dset _ _ _ _ hy with hy | rfl
        · rcases mem_dkeys_dset _ _ _ _ hy with hy | rfl
          · rcases mem_dkeys_dset _ _ _ _ hy with hy | rfl
            · rcases mem_dkeys_dset _ _ _ _ hy with hy | rfl
              · rcases mem_dkeys_dset _ _ _ _ hy with hy | rfl
                · simp [dkeys] at hy
                · decide
              · decide
            · decide
          · decide
        · decide
      · decide
    cases hc : env.cpuTemp with
    | none =>
      simp only [hc] at h
      exact base x h
    | some t =>
      simp only [hc] at h
      split at h
      · rcases mem_dkeys_dset _ _ _ _ h with h | rfl
        · exact base x h
        · decide
      · exact base x h
  · rcases battery_keys _ _ h with h | h | h <;> simp [NONGPU_KEYS, h]

theorem nongpu_not_gpu (x : String) (h : x ∈ NONGPU_KEYS) : isGpuKey x = false := by
  fin_cases h <;> decide

theorem gpuStep_no_stats (row : List (String × Cell)) (shown : Bool) (env : QmassaEnv)
    (h : (get_gpu_stats_qmassa env).1.1 = none) :
    (gpuStep row shown (some env)).1 = row := by
  simp [gpuStep, h]

/-- A timed-out probe call (for witnesses). -/
def envTimeoutW : QmassaEnv := ⟨ProcResult.timeout, none⟩

/-- A probe call exiting with code 1 and stderr `boom` (for witnesses). -/
def envExitW : QmassaEnv := ⟨ProcResult.done 1 "boom", none⟩

/-- Concrete psutil readings for witnesses. -/
def tickEnvW : TickEnv := ⟨0, 0, 0, 0, none, none⟩

/-- C6: the probe call carries a hard 10-second timeout; on timeout the
adapter returns no metrics plus the timeout message, on a non-zero exit no
metrics plus the stripped stderr text (or `Exit code n` when stderr is
empty) — a returned value, never a raised fault (the model is total); and
whenever the adapter produced no metrics, the tick's record is exactly the
base row, all of whose keys lie outside the `gpu_` namespace, so the run
continues with no `gpu_`-prefixed key that tick. -/
theorem qmassa_soft_failure :
    QMASSA_TIMEOUT_SECONDS ≤ 10 ∧
    (∀ env : QmassaEnv, env.run = ProcResult.timeout →
      (get_gpu_stats_qmassa env).1 = (none, some "qmassa timed out")) ∧
    (∀ (env : QmassaEnv) (rc : Int) (err : String), env.run = ProcResult.done rc err →
      rc ≠ 0 →
      (get_gpu_stats_qmassa env).1 =
        (none, some (if err ≠ "" then err.trim else "Exit code " ++ toString rc))) ∧
    (∀ (runId ts : String) (tenv : TickEnv) (shown : Bool) (env : QmassaEnv),
      (get_gpu_stats_qmassa env).1.1 = none →
      ∀ k ∈ dkeys (gpuStep (baseRow runId ts tenv) shown (some env)).1,
        isGpuKey k = false) := by
  refine ⟨by decide, ?_, ?_, ?_⟩
  · intro env h
    simp [get_gpu_stats_qmassa, h]
  · intro env rc err h hrc
    simp [get_gpu_stats_qmassa, h, hrc]
  · intro runId ts tenv shown env h k hk
    rw [gpuStep_no_stats _ _ _ h] at hk
    exact nongpu_not_gpu k (baseRow_keys _ _ _ _ hk)

/-- Witness for C6: a timeout and an exit-code-1 call at concrete inputs. -/
theorem qmassa_soft_failure_witness :
    (get_gpu_stats_qmassa envTimeoutW).1 = (none, some "qmassa timed out") ∧
    (get_gpu_stats_qmassa envExitW).1 = (none, some ("boom".trim)) ∧
    isGpuKey "cpu_percent" = false := by
  refine ⟨qmassa_soft_failure.2.1 envTimeoutW rfl, ?_, ?_⟩
  · have h := qmassa_soft_failure.2.2.1 envExitW 1 "boom" rfl (by decide)
    rw [h, if_pos (by decide)]
  · exact qmassa_soft_failure.2.2.2 "r" "t" tickEnvW false envTimeoutW rfl
      "cpu_percent" (by decide)

/-- An exit-code-1 probe call whose temp file exists. -/
def envFailC7 : QmassaEnv := ⟨ProcResult.done 1 "boom", some [QLine.junk]⟩

/-- Counterexample to C7 as stated: on the non-zero-exit path the adapter
returns with the temp file still in place (deletion happens only after a
completed extraction). -/
theorem temp_file_left_on_failure : (get_gpu_stats_qmassa envFailC7).2 ≠ none := by
  intro h
  rw [show (get_gpu_stats_qmassa envFailC7).2 = some [QLine.junk] from rfl] at h
  exact Option.noConfusion h

/-- Does control reach the `os.remove` of lines 180-183?  Exactly when the
subprocess completed with exit code 0, the temp file exists, a `devs_state`
line was found, its value is a non-empty array, and the extraction of its
first device runs to completion without raising. -/
def reachesCleanup (env : QmassaEnv) : Bool :=
  match env.run with
  | ProcResult.timeout => false
  | ProcResult.done rc _ =>
    decide (rc = 0) &&
      (match env.fileAfterRun with
       | none => false
       | some lines =>
         match findRecord lines with
         | some (Json.arr (d :: _)) =>
           match extractStatsE d with
           | Except.ok _ => true
           | Except.error _ => false
         | _ => false)

/-- C7 amended: the temp file is deleted before the adapter returns only on
the path that runs extraction to completion (exit code 0, file present, a
`devs_state` line whose value is a non-empty array, and an extraction that
does not raise — the empty-stats result included); on the timeout,
non-zero-exit, file-missing, no-valid-data and no-devices paths, and on
every type-confused input that makes lines 90-177 raise into the outer
handler, the adapter returns with the file in whatever state the probe left
it, and it is only removed by the monitor's end-of-run `finally` cleanup
(lines 389-395). -/
theorem temp_file_cleanup_characterization (env : QmassaEnv) :
    (get_gpu_stats_qmassa env).2 =
      (if reachesCleanup env then none else env.fileAfterRun) := by
  obtain ⟨run, file⟩ := env
  cases run with
  | timeout => rfl
  | done rc err =>
    by_cases hrc : rc = 0
    · cases file with
      | none => simp [get_gpu_stats_qmassa, reachesCleanup, hrc]
      | some lines =>
        cases hf : findRecord lines with
        | none => simp [get_gpu_stats_qmassa, reachesCleanup, hrc, hf]
        | some ds =>
          cases ds with
          | null => simp [get_gpu_stats_qmassa, reachesCleanup, hrc, hf, pyTruthy]
          | bool b =>
            cases b <;> simp [get_gpu_stats_qmassa, reachesCleanup, hrc, hf, pyTruthy]
          | num q =>
            by_cases hq : q = 0 <;>
              simp [get_gpu_stats_qmassa, reachesCleanup, hrc, hf, pyTruthy, hq]
          | str st =>
            by_cases hst : st = "" <;>
              simp [get_gpu_stats_qmassa, reachesCleanup, hrc, hf, pyTruthy, hst]
          | obj fields =>
            cases fields <;>
              simp [get_gpu_stats_qmassa, reachesCleanup, hrc, hf, pyTruthy]
          | arr xs =>
            cases xs with
            | nil => simp [get_gpu_stats_qmassa, reachesCleanup, hrc, hf, pyTruthy]
            | cons d rest =>
              cases he : extractStatsE d with
              | error e =>
                simp [get_gpu_stats_qmassa, reachesCleanup, hrc, hf, pyTruthy, he]
              | ok stats =>
                simp [get_gpu_stats_qmassa, reachesCleanup, hrc, hf, pyTruthy, he]
    · simp [get_gpu_stats_qmassa, reachesCleanup, hrc]

theorem qmassaFlagStep_none_true (r : Option (List (String × Json)) × Option String)
    (h : r.1 = none) : qmassaFlagStep true r = (true, false) := by
  obtain ⟨a, b⟩ := r
  simp only at h
  subst h
  cases b with
  | none => rfl
  | some err =>
    simp only [qmassaFlagStep]
    split
    · rfl
    · rfl

/-- C9: the qmassa failure diagnostic is edge-triggered.  (i) a tick that
prints leaves the `qmassa_error_shown` flag set; (ii) once the flag is set,
any run of ticks in which the adapter yields no metrics prints nothing
further; (iii) a metrics-bearing adapter result clears the flag; (iv) with
the flag clear, a failing tick with a non-empty diagnostic prints it (and
sets the flag); (v) a tick whose adapter yields no metrics contributes
nothing to the record — the row is exactly the pre-qmassa row. -/
theorem qmassa_error_edge_triggered :
    (∀ (shown : Bool) (r : Option (List (String × Json)) × Option String) (s : Bool),
      qmassaFlagStep shown r = (s, true) → s = true) ∧
    (∀ envs : List QmassaEnv,
      (∀ env ∈ envs, (get_gpu_stats_qmassa env).1.1 = none) →
      runFlags true (envs.map fun e => (get_gpu_stats_qmassa e).1) =
        envs.map fun _ => false) ∧
    (∀ (shown : Bool) (st : List (String × Json)) (e : Option String),
      qmassaFlagStep shown (some st, e) = (false, false)) ∧
    (∀ e : String, e ≠ "" → qmassaFlagStep false (none, some e) = (true, true)) ∧
    (∀ (row : List (String × Cell)) (shown : Bool) (env : QmassaEnv),
      (get_gpu_stats_qmassa env).1.1 = none →
      (gpuStep row shown (some env)).1 = row) := by
  refine ⟨?_, ?_, ?_, ?_, ?_⟩
  · intro shown r s h
    obtain ⟨a, b⟩ := r
    cases a with
    | some st => simp [qmassaFlagStep] at h
    | none =>
      cases b with
      | none => simp [qmassaFlagStep] at h
      | some err =>
        simp only [qmassaFlagStep] at h
        by_cases he : err ≠ ""
        · rw [if_pos he] at h
          cases shown with
          | true => simp at h
          | false => injection h with h1 _; exact h1.symm
        · rw [if_neg he] at h
          simp at h
  · intro envs
    induction envs with
    | nil => intro _; rfl
    | cons e es ih =>
      intro h
      simp only [List.map_cons, runFlags,
        qmassaFlagStep_none_true _ (h e (by simp))]
      rw [ih fun x hx => h x (List.mem_cons_of_mem _ hx)]
  · intro shown st e
    rfl
  · intro e he
    simp [qmassaFlagStep, he]
  · intro row shown env h
    exact gpuStep_no_stats row shown env h

/-- Witness for C9: a concrete all-failing run from a set flag prints
nothing, and a failing tick from a clear flag prints. -/
theorem qmassa_error_edge_triggered_witness :
    runFlags true ([envTimeoutW].map fun e => (get_gpu_stats_qmassa e).1) = [false] ∧
    qmassaFlagStep false (none, some "x") = (true, true) :=
  ⟨qmassa_error_edge_triggered.2.1 [envTimeoutW]
      (by intro env henv; simp at henv; subst henv; rfl),
   qmassa_error_edge_triggered.2.2.2.1 "x" (by decide)⟩

theorem mainRun_none_iff (runId : Option String) (inputs : List MainInput)
    (st : MainState) (h : st.csvHeaders = none) :
    ((mainRun runId st inputs).csvHeaders = none ↔ truthyInputs inputs = []) := by
  induction inputs generalizing st with
  | nil => simp [mainRun, truthyInputs, h]
  | cons i is ih =>
    show ((mainRun runId (mainTick runId st i).1 is).csvHeaders = none ↔ _)
    by_cases ht : truthyData i.data
    · have h1 : (mainTick runId st i).1.csvHeaders =
          some (dkeys (rowDataOf runId i)) := by
        simp [mainTick, ht, h]
      constructor
      · intro hh
        rw [mainRun_headers_some _ _ _ _ h1] at hh
        exact absurd hh (by simp)
      · intro hh
        simp [truthyInputs, List.filter_cons, ht] at hh
    · have h1 : (mainTick runId st i).1 = st := by simp [mainTick, ht]
      rw [h1, show truthyInputs (i :: is) = truthyInputs is from by
        simp [truthyInputs, List.filter_cons, ht]]
      exact ih st h

/-- C10 (implicit): a tick whose decode returned `None` and a tick whose
decode returned the empty dict are indistinguishable in monitor.py's loop —
identical untouched state (no row written, header not initialized) and the
identical error line; the header is seeded exactly when a tick with at least
one metric has occurred, and then from that seeding tick's `row_data` keys. -/
theorem empty_decode_indistinguishable :
    (∀ (runId : Option String) (st : MainState) (ts : String),
      mainTick runId st ⟨ts, none⟩ = (st, some READ_ERROR_MSG)) ∧
    (∀ (runId : Option String) (st : MainState) (ts : String),
      mainTick runId st ⟨ts, some []⟩ = (st, some READ_ERROR_MSG)) ∧
    (∀ (runId : Option String) (inputs : List MainInput),
      ((mainRun runId initMainState inputs).csvHeaders = none ↔
        truthyInputs inputs = [])) ∧
    (∀ (runId : Option String) (st : MainState) (inp : MainInput),
      truthyData inp.data = true → st.csvHeaders = none →
      (mainTick runId st inp).1.csvHeaders = some (dkeys (rowDataOf runId inp))) := by
  refine ⟨?_, ?_, ?_, ?_⟩
  · intro runId st ts; rfl
  · intro runId st ts; rfl
  · intro runId inputs
    exact mainRun_none_iff runId inputs initMainState rfl
  · intro runId st inp ht h
    simp [mainTick, ht, h]

/-- Witness for C10: the seeding conjunct at a concrete first metric tick. -/
theorem empty_decode_indistinguishable_witness :
    (mainTick none initMainState ⟨"t", some [("CPU Package Power [W]", 1)]⟩).1.csvHeaders =
      some (dkeys (rowDataOf none ⟨"t", some [("CPU Package Power [W]", 1)]⟩)) :=
  empty_decode_indistinguishable.2.2.2 none initMainState
    ⟨"t", some [("CPU Package Power [W]", 1)]⟩ rfl rfl
